import Mathlib

/-!
Verification development for the lunar-lander flight-simulation core
(`src/lander.rs`, `src/map.rs`, `src/game.rs`).

The Rust code is shallowly embedded: `f32` arithmetic is modelled by exact
rational arithmetic (`ℚ`); the external geometry library (quicksilver's
`Transform::rotate`, `Circle::intersects`, `Line::intersects`) is modelled
as a parameter record `Geom`, so every theorem about `check_collision`
holds for every implementation of those primitives; a concrete rational
instantiation `exactGeom` (exact for right-angle rotations) is provided to
evaluate the model on concrete inputs.  `rand::random` and `Instant::now`
are modelled as explicit arguments.  Rust's panics are modelled by
`Option`, and `Vector::len()` (a square root) is modelled through its
square `lenSq`, so that `len v > c` for `c ≥ 0` becomes `lenSq v > c^2`.
-/

namespace LunarLander

/-- quicksilver's 2-D `Vector` with `f32` components, modelled over `ℚ`. -/
structure Vector where
  x : ℚ
  y : ℚ
deriving DecidableEq, Repr

instance : Add Vector := ⟨fun u v => ⟨u.x + v.x, u.y + v.y⟩⟩

instance : HMul Vector ℚ Vector := ⟨fun v c => ⟨v.x * c, v.y * c⟩⟩

instance : HDiv Vector ℚ Vector := ⟨fun v c => ⟨v.x / c, v.y / c⟩⟩

/-- The square of quicksilver's `Vector::len()` (the Euclidean magnitude);
the code only ever compares `len` against nonnegative constants, and
`len v > c ↔ lenSq v > c^2` for `c ≥ 0`. -/
def Vector.lenSq (v : Vector) : ℚ := v.x * v.x + v.y * v.y

/-- quicksilver's `Line`: an ordered pair of endpoints `a`, `b`. -/
structure Line where
  a : Vector
  b : Vector
deriving DecidableEq, Repr

/-- quicksilver's `Circle`: a center and a radius. -/
structure Circle where
  center : Vector
  radius : ℚ
deriving DecidableEq, Repr

/-- `CrashReason` from `src/lander.rs`. -/
inductive CrashReason where
  | AngleTooSteep (angle : ℚ)
  | VelocityTooHigh (v : Vector)
  | SurfaceNotFlat (l : Line)
deriving DecidableEq, Repr

/-- `LunarModuleState` from `src/lander.rs`. -/
inductive LunarModuleState where
  | Flying
  | Landed
  | Crashed (reason : CrashReason)
deriving DecidableEq, Repr

/-- The `LunarModule` struct from `src/lander.rs`.  `thruster_on_time`
(a `std::time::Instant`) is modelled as an abstract timestamp. -/
structure LunarModule where
  velocity : Vector
  position : Vector
  desired_attitude : ℚ
  state : LunarModuleState
  zoomed : Bool
  attitude : ℚ
  thruster_on : Bool
  thruster_on_time : ℕ
deriving DecidableEq, Repr

/-- The `Map` struct from `src/map.rs`: the terrain's line segments. -/
structure Map where
  lines : List Line
deriving DecidableEq, Repr

/-- Truncation toward zero, the rounding used by Rust's `%` on floats. -/
def ratTrunc (q : ℚ) : ℤ := if 0 ≤ q then ⌊q⌋ else ⌈q⌉

/-- Rust's `%` (remainder) on floats: same sign as the dividend,
`a % b = a - b * trunc (a / b)`. -/
def rustRem (a b : ℚ) : ℚ := a - b * (ratTrunc (a / b) : ℚ)

/-- `(self.attitude % 360.0).abs()` from `src/lander.rs` line 108: the
normalization the code applies to the attitude before the threshold
comparison. -/
def attitudeNormalize (θ : ℚ) : ℚ := |rustRem θ 360|

/-- Normalization of an angle into `[0,360)` (Euclidean remainder), the
normalization the spec's words describe (`normalize θ ∈ [0,360)`). -/
def specNormalize (θ : ℚ) : ℚ := θ - 360 * (⌊θ / 360⌋ : ℚ)

/-- The geometric primitives the code takes from the quicksilver library:
rotation of a vector by an angle in degrees (`Transform::rotate(θ) * v`),
circle–segment intersection (`Circle::intersects`) and segment–segment
intersection (`Line::intersects`).  The embedding is parametric in them. -/
structure Geom where
  rotate : ℚ → Vector → Vector
  circleLine : Circle → Line → Bool
  lineLine : Line → Line → Bool

/-- `ZOOMED_SCALE` from `src/lander.rs`. -/
def ZOOMED_SCALE : ℚ := 6/10

/-- The geometry scale factor: `if self.zoomed { ZOOMED_SCALE } else { 1.0 }`. -/
def LunarModule.multiplier (m : LunarModule) : ℚ :=
  if m.zoomed then ZOOMED_SCALE else 1

/-- The nose/dome collision circle built in `check_collision`. -/
def topCircle (g : Geom) (m : LunarModule) : Circle :=
  ⟨m.position + g.rotate m.attitude ⟨0, -6⟩ * m.multiplier, 4 * m.multiplier⟩

/-- `bottom_left` in `check_collision`. -/
def bottomLeft (g : Geom) (m : LunarModule) : Vector :=
  m.position + g.rotate m.attitude ⟨-3, 2⟩ * m.multiplier

/-- `left_leg_base` in `check_collision`. -/
def leftLegBase (g : Geom) (m : LunarModule) : Line :=
  ⟨bottomLeft g m, bottomLeft g m + g.rotate m.attitude ⟨-3, 2⟩ * m.multiplier⟩

/-- `bottom_right` in `check_collision`. -/
def bottomRight (g : Geom) (m : LunarModule) : Vector :=
  m.position + g.rotate m.attitude ⟨3, 2⟩ * m.multiplier

/-- `right_leg_base` in `check_collision`. -/
def rightLegBase (g : Geom) (m : LunarModule) : Line :=
  ⟨bottomRight g m, bottomRight g m + g.rotate m.attitude ⟨3, 2⟩ * m.multiplier⟩

/-- The per-segment contact test of `check_collision` (line 105): the nose
circle or one of the two leg segments intersects the terrain segment.  The
craft's main body rectangle is not part of the test. -/
def colliding (g : Geom) (m : LunarModule) (line : Line) : Bool :=
  g.circleLine (topCircle g m) line || g.lineLine (leftLegBase g m) line ||
    g.lineLine (rightLegBase g m) line

/-- `disable_thrust` from `src/lander.rs`. -/
def disable_thrust (m : LunarModule) : LunarModule :=
  { m with thruster_on := false }

/-- The state computed by the body of `check_collision`'s contact branch
(lines 108–117): velocity check, then flatness, then angle threshold. -/
def contactState (m : LunarModule) (line : Line) : LunarModuleState :=
  let attitude := |rustRem m.attitude 360|
  if m.velocity.lenSq > 400 then
    .Crashed (.VelocityTooHigh m.velocity)
  else if line.a.y ≠ line.b.y then
    .Crashed (.SurfaceNotFlat line)
  else if attitude > 10 ∧ attitude < 360 - 10 then
    .Crashed (.AngleTooSteep attitude)
  else
    .Landed

/-- The loop of `check_collision` (lines 104–121): first contacting
segment wins and returns; no contact falls through to `Flying`. -/
def check_collision_go (g : Geom) (m : LunarModule) : List Line → LunarModule
  | [] => { m with state := .Flying }
  | line :: rest =>
    if colliding g m line then
      { disable_thrust m with state := contactState m line }
    else
      check_collision_go g m rest

/-- `check_collision` from `src/lander.rs`. -/
def check_collision (g : Geom) (map : Map) (m : LunarModule) : LunarModule :=
  check_collision_go g m map.lines

/-- `update_attitude` from `src/lander.rs`. -/
def update_attitude (m : LunarModule) : LunarModule :=
  if m.state = .Flying then { m with attitude := m.desired_attitude } else m

/-- `apply_thrust` from `src/lander.rs`; `now` models `Instant::now()`. -/
def apply_thrust (g : Geom) (now : ℕ) (m : LunarModule) : LunarModule :=
  if m.state = .Flying then
    let m1 := { m with velocity := m.velocity + g.rotate m.attitude ((⟨0, -15⟩ : Vector) / (60 : ℚ)) }
    if !m1.thruster_on then
      { m1 with thruster_on := true, thruster_on_time := now }
    else
      { m1 with thruster_on := true }
  else m

/-- `tick_position` from `src/lander.rs`: gravity onto velocity, then the
new velocity onto the position, both with a fixed `1/60` step. -/
def tick_position (m : LunarModule) : LunarModule :=
  let v := m.velocity + (⟨0, 5⟩ : Vector) / (60 : ℚ)
  { m with velocity := v, position := m.position + v / (60 : ℚ) }

/-- `reset` from `src/lander.rs`; `r` models `rand::random::<f32>()`
(a value in `[0,1)`), `now` models `Instant::now()`. -/
def reset (r : ℚ) (now : ℕ) (m : LunarModule) : LunarModule :=
  { m with
    velocity := ⟨20 + r * 20, 0⟩
    position := ⟨400, 300⟩
    attitude := 90
    desired_attitude := 90
    state := .Flying
    thruster_on := true
    thruster_on_time := now }

/-- `LunarModule::new` from `src/lander.rs`. -/
def LunarModule.new (r : ℚ) (now : ℕ) : LunarModule :=
  { velocity := ⟨20 + r * 20, 0⟩
    position := ⟨400, 300⟩
    attitude := 90
    desired_attitude := 90
    state := .Flying
    thruster_on := true
    zoomed := false
    thruster_on_time := now }

/-- The integration step of `Game::update` (`src/game.rs` lines 75–77):
the caller ticks the position only while the craft is `Flying`. -/
def gameTickPhase (m : LunarModule) : LunarModule :=
  if m.state = .Flying then tick_position m else m

/-- The segment construction of `MapMessage::extract_map` (`src/map.rs`):
one segment per consecutive pair of points. -/
def extract_go (last : Vector) : List Vector → List Line
  | [] => []
  | p :: rest => ⟨last, p⟩ :: extract_go p rest

/-- `MapMessage::extract_map` from `src/map.rs`.  The function indexes
`points[0]` unconditionally, so an empty point list panics — modelled as
`none`.  Every non-empty list succeeds. -/
def extract_map (points : List Vector) : Option Map :=
  match points with
  | [] => none
  | p :: rest => some ⟨extract_go p rest⟩

/-! ### A concrete rational instantiation of the geometric primitives

Used to evaluate the model on explicit inputs.  Rotation is exact for
quarter-turn angles (the only attitudes concrete inputs below use);
intersection tests are the standard exact segment–segment and
circle–segment tests over `ℚ`. -/

/-- Vector subtraction (component-wise). -/
def Vector.sub (u v : Vector) : Vector := ⟨u.x - v.x, u.y - v.y⟩

/-- Dot product. -/
def dot (u v : Vector) : ℚ := u.x * v.x + u.y * v.y

/-- 2-D cross product of `a - o` and `b - o` (orientation test). -/
def cross (o a b : Vector) : ℚ :=
  (a.x - o.x) * (b.y - o.y) - (a.y - o.y) * (b.x - o.x)

/-- `q` lies inside the bounding box of `p` and `r` (used for collinear
segment-intersection cases). -/
def onSegment (p q r : Vector) : Bool :=
  decide (min p.x r.x ≤ q.x ∧ q.x ≤ max p.x r.x ∧
    min p.y r.y ≤ q.y ∧ q.y ≤ max p.y r.y)

/-- Exact segment–segment intersection over `ℚ` (orientation tests plus
collinear bounding-box cases). -/
def segsIntersect (s t : Line) : Bool :=
  let d1 := cross t.a t.b s.a
  let d2 := cross t.a t.b s.b
  let d3 := cross s.a s.b t.a
  let d4 := cross s.a s.b t.b
  decide (((0 < d1 ∧ d2 < 0) ∨ (d1 < 0 ∧ 0 < d2)) ∧
      ((0 < d3 ∧ d4 < 0) ∨ (d3 < 0 ∧ 0 < d4))) ||
    (decide (d1 = 0) && onSegment t.a s.a t.b) ||
    (decide (d2 = 0) && onSegment t.a s.b t.b) ||
    (decide (d3 = 0) && onSegment s.a t.a s.b) ||
    (decide (d4 = 0) && onSegment s.a t.b s.b)

/-- Exact circle–segment intersection over `ℚ`: the squared distance from
the center to the segment is at most the squared radius. -/
def circleSegIntersect (c : Circle) (l : Line) : Bool :=
  let d := l.b.sub l.a
  let w := c.center.sub l.a
  let dd := dot d d
  let wd := dot w d
  if wd ≤ 0 then decide (w.lenSq ≤ c.radius * c.radius)
  else if dd ≤ wd then decide ((c.center.sub l.b).lenSq ≤ c.radius * c.radius)
  else decide (w.lenSq * dd - wd * wd ≤ c.radius * c.radius * dd)

/-- Cosine in degrees, exact on quarter-turn angles (1 elsewhere, matching
the 0° value; concrete inputs only use quarter-turn attitudes). -/
def cosdQ (θ : ℚ) : ℚ :=
  let r := specNormalize θ
  if r = 90 then 0 else if r = 180 then -1 else if r = 270 then 0 else 1

/-- Sine in degrees, exact on quarter-turn angles (0 elsewhere). -/
def sindQ (θ : ℚ) : ℚ :=
  let r := specNormalize θ
  if r = 90 then 1 else if r = 180 then 0 else if r = 270 then -1 else 0

/-- Rotation by an angle in degrees via `cosdQ`/`sindQ`. -/
def rotDeg (θ : ℚ) (v : Vector) : Vector :=
  ⟨cosdQ θ * v.x - sindQ θ * v.y, sindQ θ * v.x + cosdQ θ * v.y⟩

/-- The concrete instantiation of the geometric primitives. -/
def exactGeom : Geom := ⟨rotDeg, circleSegIntersect, segsIntersect⟩

/-- A craft in flight at the origin, attitude `-90°`, at rest. -/
def craftNeg90 : LunarModule :=
  { velocity := ⟨0, 0⟩, position := ⟨0, 0⟩, desired_attitude := 0,
    state := .Flying, zoomed := false, attitude := -90, thruster_on := true,
    thruster_on_time := 0 }

/-- A flat terrain segment at height `3` spanning `x ∈ [-10, 10]`. -/
def flatSeg : Line := ⟨⟨-10, 3⟩, ⟨10, 3⟩⟩

/-- The one-segment terrain made of `flatSeg`. -/
def flatMap : Map := ⟨[flatSeg]⟩

/-- A craft resting at the origin in the `Landed` state, far away from
`farMap`'s only segment. -/
def landedCraft : LunarModule :=
  { velocity := ⟨0, 0⟩, position := ⟨0, 0⟩, desired_attitude := 0,
    state := .Landed, zoomed := false, attitude := 0, thruster_on := false,
    thruster_on_time := 0 }

/-- A terrain whose only segment is far from the origin. -/
def farMap : Map := ⟨[⟨⟨1000, 1000⟩, ⟨2000, 1000⟩⟩]⟩

/-- A craft in flight at the origin, attitude `0°`, at rest. -/
def craftZero : LunarModule :=
  { velocity := ⟨0, 0⟩, position := ⟨0, 0⟩, desired_attitude := 0,
    state := .Flying, zoomed := false, attitude := 0, thruster_on := true,
    thruster_on_time := 0 }

/-- The contact classification in the form the (amended) spec states it:
velocity magnitude above 20 dominates, then a non-flat segment, then the
attitude value — the absolute value of the remainder of the attitude by
360, which lies in `[0,360)` — outside the ±10° tolerance; otherwise a
safe landing.  To be compared with the classification `check_collision`
actually computes. -/
def specClassify (m : LunarModule) (line : Line) : LunarModuleState :=
  if m.velocity.lenSq > 20 ^ 2 then
    .Crashed (.VelocityTooHigh m.velocity)
  else if line.a.y ≠ line.b.y then
    .Crashed (.SurfaceNotFlat line)
  else if 10 < attitudeNormalize m.attitude ∧ attitudeNormalize m.attitude < 350 then
    .Crashed (.AngleTooSteep (attitudeNormalize m.attitude))
  else
    .Landed

/-- The contact classification exactly as claim C1 words it: the attitude
is normalized into `[0,360)` (`specNormalize`) and taken in absolute
value; that value decides the tolerance test and is the `AngleTooSteep`
payload.  To be compared with the classification `check_collision`
actually computes. -/
def claimClassifyC1 (m : LunarModule) (line : Line) : LunarModuleState :=
  if m.velocity.lenSq > 20 ^ 2 then
    .Crashed (.VelocityTooHigh m.velocity)
  else if line.a.y ≠ line.b.y then
    .Crashed (.SurfaceNotFlat line)
  else if 10 < |specNormalize m.attitude| ∧ |specNormalize m.attitude| < 350 then
    .Crashed (.AngleTooSteep |specNormalize m.attitude|)
  else
    .Landed

/-!  ## Theorems  -/

theorem Vector.ext' {u v : Vector} (hx : u.x = v.x) (hy : u.y = v.y) : u = v := by
  cases u; cases v; cases hx; cases hy; rfl

theorem Vector.add_x (u v : Vector) : (u + v).x = u.x + v.x := rfl

theorem Vector.add_y (u v : Vector) : (u + v).y = u.y + v.y := rfl

theorem Vector.smul_x (v : Vector) (c : ℚ) : (v * c).x = v.x * c := rfl

theorem Vector.smul_y (v : Vector) (c : ℚ) : (v * c).y = v.y * c := rfl

theorem Vector.sdiv_x (v : Vector) (c : ℚ) : (v / c).x = v.x / c := rfl

theorem Vector.sdiv_y (v : Vector) (c : ℚ) : (v / c).y = v.y / c := rfl

/-! ### Properties of the angle normalizations -/

theorem specNormalize_nonneg (θ : ℚ) : 0 ≤ specNormalize θ := by
  have h1 := Int.floor_le (θ / 360)
  have h3 : θ / 360 * 360 = θ := by field_simp
  unfold specNormalize
  nlinarith [h1]

theorem specNormalize_lt (θ : ℚ) : specNormalize θ < 360 := by
  have h2 := Int.lt_floor_add_one (θ / 360)
  have h3 : θ / 360 * 360 = θ := by field_simp
  unfold specNormalize
  nlinarith [h2]

theorem specNormalize_add_int (θ : ℚ) (k : ℤ) :
    specNormalize (θ + 360 * k) = specNormalize θ := by
  unfold specNormalize
  have h : (θ + 360 * k) / 360 = θ / 360 + k := by field_simp; ring
  rw [h, Int.floor_add_int]
  push_cast
  ring

theorem ratTrunc_of_nonneg {q : ℚ} (h : 0 ≤ q) : ratTrunc q = ⌊q⌋ := if_pos h

theorem ratTrunc_of_neg {q : ℚ} (h : q < 0) : ratTrunc q = ⌈q⌉ := if_neg (not_le.mpr h)

theorem rustRem_of_nonneg {θ : ℚ} (h : 0 ≤ θ) : rustRem θ 360 = specNormalize θ := by
  unfold rustRem specNormalize
  rw [ratTrunc_of_nonneg (by positivity)]

theorem rustRem_of_neg {θ : ℚ} (h : θ < 0) :
    rustRem θ 360 = if specNormalize θ = 0 then 0 else specNormalize θ - 360 := by
  have hq : θ / 360 < 0 := div_neg_of_neg_of_pos h (by norm_num)
  unfold rustRem
  rw [ratTrunc_of_neg hq]
  by_cases h0 : specNormalize θ = 0
  · have hfl : (⌊θ / 360⌋ : ℚ) = θ / 360 := by
      unfold specNormalize at h0
      field_simp
      linarith [h0]
    have : ⌈θ / 360⌉ = ⌊θ / 360⌋ := by
      rw [show θ / 360 = ((⌊θ / 360⌋ : ℤ) : ℚ) from hfl.symm]
      rw [Int.ceil_intCast, Int.floor_intCast]
    rw [if_pos h0, this]
    unfold specNormalize at h0
    linarith [h0]
  · have hlt : (⌊θ / 360⌋ : ℚ) < θ / 360 := by
      rcases lt_or_eq_of_le (Int.floor_le (θ / 360)) with h' | h'
      · exact h'
      · exfalso
        apply h0
        unfold specNormalize
        rw [h']
        field_simp
    have hceil : ⌈θ / 360⌉ = ⌊θ / 360⌋ + 1 := by
      have hub : ⌈θ / 360⌉ ≤ ⌊θ / 360⌋ + 1 := by
        apply Int.ceil_le.mpr
        push_cast
        linarith [Int.lt_floor_add_one (θ / 360)]
      have hlb : ⌊θ / 360⌋ + 1 ≤ ⌈θ / 360⌉ := Int.lt_ceil.mpr hlt
      omega
    rw [if_neg h0, hceil]
    unfold specNormalize
    push_cast
    ring

theorem attitudeNormalize_of_nonneg {θ : ℚ} (h : 0 ≤ θ) :
    attitudeNormalize θ = specNormalize θ := by
  unfold attitudeNormalize
  rw [rustRem_of_nonneg h, abs_of_nonneg (specNormalize_nonneg θ)]

theorem attitudeNormalize_of_neg {θ : ℚ} (h : θ < 0) :
    attitudeNormalize θ =
      if specNormalize θ = 0 then 0 else 360 - specNormalize θ := by
  unfold attitudeNormalize
  rw [rustRem_of_neg h]
  by_cases h0 : specNormalize θ = 0
  · simp [h0]
  · rw [if_neg h0, if_neg h0, abs_of_neg (by linarith [specNormalize_lt θ]), neg_sub]

theorem attitudeNormalize_nonneg (θ : ℚ) : 0 ≤ attitudeNormalize θ := abs_nonneg _

theorem attitudeNormalize_lt (θ : ℚ) : attitudeNormalize θ < 360 := by
  rcases le_or_lt 0 θ with h | h
  · rw [attitudeNormalize_of_nonneg h]
    exact specNormalize_lt θ
  · rw [attitudeNormalize_of_neg h]
    by_cases h0 : specNormalize θ = 0
    · rw [if_pos h0]; norm_num
    · rw [if_neg h0]
      have := specNormalize_nonneg θ
      have : 0 < specNormalize θ := lt_of_le_of_ne this (Ne.symm h0)
      linarith

/-- The crash decision `10 < value < 350` computed from the code's
normalization agrees with the one computed from the Euclidean
normalization into `[0,360)`. -/
theorem steep_iff_specNormalize (θ : ℚ) :
    (10 < attitudeNormalize θ ∧ attitudeNormalize θ < 350) ↔
      (10 < specNormalize θ ∧ specNormalize θ < 350) := by
  rcases le_or_lt 0 θ with h | h
  · rw [attitudeNormalize_of_nonneg h]
  · rw [attitudeNormalize_of_neg h]
    by_cases h0 : specNormalize θ = 0
    · rw [if_pos h0, h0]
    · rw [if_neg h0]
      have h1 := specNormalize_lt θ
      have h2 : 0 < specNormalize θ :=
        lt_of_le_of_ne (specNormalize_nonneg θ) (Ne.symm h0)
      constructor <;> rintro ⟨ha, hb⟩ <;> constructor <;> linarith

/-! ### Structure of the collision scan -/

/-- The early-return loop of `check_collision` computes the outcome of the
first segment (in stored order) whose contact test fires. -/
theorem check_collision_go_eq_find (g : Geom) (m : LunarModule) (ls : List Line) :
    check_collision_go g m ls =
      match ls.find? (colliding g m) with
      | some line => { disable_thrust m with state := contactState m line }
      | none => { m with state := .Flying } := by
  induction ls with
  | nil => rfl
  | cons l rest ih =>
    by_cases h : colliding g m l = true
    · rw [check_collision_go, if_pos h, List.find?_cons_of_pos _ h]
    · rw [check_collision_go, if_neg h, List.find?_cons_of_neg _ h, ih]

/-- The code's contact classification written with `400 = 20²` and
`350 = 360 − 10` folded, i.e. in the spec's phrasing. -/
theorem contactState_eq_specClassify (m : LunarModule) (line : Line) :
    contactState m line = specClassify m line := by
  unfold contactState specClassify attitudeNormalize
  norm_num

/-- `extract_map` produces one segment per consecutive pair of points. -/
theorem extract_go_length (q : Vector) (ps : List Vector) :
    (extract_go q ps).length = ps.length := by
  induction ps generalizing q with
  | nil => rfl
  | cons p rest ih => rw [extract_go, List.length_cons, List.length_cons, ih]

/-! ### Evaluations of the concrete scenarios -/

theorem colliding_neg90 : colliding exactGeom craftNeg90 flatSeg = true := by
  norm_num [colliding, topCircle, leftLegBase, rightLegBase, bottomLeft, bottomRight,
    LunarModule.multiplier, exactGeom, rotDeg, cosdQ, sindQ, specNormalize,
    circleSegIntersect, segsIntersect, cross, onSegment, dot, Vector.sub, Vector.lenSq,
    craftNeg90, flatSeg, ZOOMED_SCALE, Vector.add_x, Vector.add_y, Vector.smul_x,
    Vector.smul_y, Vector.sdiv_x, Vector.sdiv_y]

theorem colliding_far : colliding exactGeom landedCraft ⟨⟨1000, 1000⟩, ⟨2000, 1000⟩⟩ = false := by
  norm_num [colliding, topCircle, leftLegBase, rightLegBase, bottomLeft, bottomRight,
    LunarModule.multiplier, exactGeom, rotDeg, cosdQ, sindQ, specNormalize,
    circleSegIntersect, segsIntersect, cross, onSegment, dot, Vector.sub, Vector.lenSq,
    landedCraft, ZOOMED_SCALE, Vector.add_x, Vector.add_y, Vector.smul_x,
    Vector.smul_y, Vector.sdiv_x, Vector.sdiv_y]

theorem colliding_zero : colliding exactGeom craftZero flatSeg = true := by
  norm_num [colliding, topCircle, leftLegBase, rightLegBase, bottomLeft, bottomRight,
    LunarModule.multiplier, exactGeom, rotDeg, cosdQ, sindQ, specNormalize,
    circleSegIntersect, segsIntersect, cross, onSegment, dot, Vector.sub, Vector.lenSq,
    craftZero, flatSeg, ZOOMED_SCALE, Vector.add_x, Vector.add_y, Vector.smul_x,
    Vector.smul_y, Vector.sdiv_x, Vector.sdiv_y]

theorem find_craftNeg90 :
    flatMap.lines.find? (colliding exactGeom craftNeg90) = some flatSeg := by
  rw [show flatMap.lines = [flatSeg] from rfl, List.find?_cons_of_pos _ colliding_neg90]

theorem find_craftZero :
    flatMap.lines.find? (colliding exactGeom craftZero) = some flatSeg := by
  rw [show flatMap.lines = [flatSeg] from rfl, List.find?_cons_of_pos _ colliding_zero]

theorem find_landedCraft :
    farMap.lines.find? (colliding exactGeom landedCraft) = none := by
  rw [show farMap.lines = [⟨⟨1000, 1000⟩, ⟨2000, 1000⟩⟩] from rfl,
    List.find?_cons_of_neg _ (by rw [colliding_far]; exact Bool.false_ne_true)]
  rfl

theorem attitudeNormalize_neg90 : attitudeNormalize (-90) = 90 := by
  have h : specNormalize (-90) = 270 := by
    unfold specNormalize
    rw [show ⌊(-90 : ℚ) / 360⌋ = -1 from by norm_num]
    norm_num
  rw [attitudeNormalize_of_neg (by norm_num), h]
  norm_num

theorem attitudeNormalize_270 : attitudeNormalize 270 = 270 := by
  have h : specNormalize 270 = 270 := by
    unfold specNormalize
    rw [show ⌊(270 : ℚ) / 360⌋ = 0 from by norm_num]
    norm_num
  rw [attitudeNormalize_of_nonneg (by norm_num), h]

theorem specNormalize_neg90 : specNormalize (-90) = 270 := by
  unfold specNormalize
  rw [show ⌊(-90 : ℚ) / 360⌋ = -1 from by norm_num]
  norm_num

/-! ### The claims -/

/-- C1 (amended): for every craft and terrain, when the collision scan
registers contact with a first terrain segment, thrust is disabled and the
new state is chosen by the fixed priority over that segment only: velocity
magnitude above 20 (`lenSq > 20²`) → `VelocityTooHigh`; else a non-flat
segment (`a.y ≠ b.y`) → `SurfaceNotFlat`; else the attitude value
`|attitude % 360|` — which lies in `[0,360)` and agrees with the Euclidean
normalization for nonnegative attitudes — strictly between 10 and 350 →
`AngleTooSteep` of that value; otherwise `Landed`. -/
theorem C1_contact_priority (g : Geom) (map : Map) (m : LunarModule) (line : Line)
    (h : map.lines.find? (colliding g m) = some line) :
    (check_collision g map m).thruster_on = false ∧
      (check_collision g map m).state = specClassify m line := by
  rw [check_collision, check_collision_go_eq_find, h]
  exact ⟨rfl, contactState_eq_specClassify m line⟩

/-- C1, witness: a craft at attitude 0 resting on a flat segment. -/
theorem C1_contact_priority_witness :
    (check_collision exactGeom flatMap craftZero).thruster_on = false ∧
      (check_collision exactGeom flatMap craftZero).state = specClassify craftZero flatSeg :=
  C1_contact_priority exactGeom flatMap craftZero flatSeg find_craftZero

/-- C1, counterexample to the claim as stated: at attitude `-90°` the code
reports `AngleTooSteep 90` (the absolute value of the Rust remainder),
while the claim's value — the attitude normalized into `[0,360)`, in
absolute value — is `270`. -/
theorem C1_counterexample :
    flatMap.lines.find? (colliding exactGeom craftNeg90) = some flatSeg ∧
      (check_collision exactGeom flatMap craftNeg90).state = .Crashed (.AngleTooSteep 90) ∧
      claimClassifyC1 craftNeg90 flatSeg = .Crashed (.AngleTooSteep 270) ∧
      (check_collision exactGeom flatMap craftNeg90).state ≠ claimClassifyC1 craftNeg90 flatSeg := by
  have hstate : (check_collision exactGeom flatMap craftNeg90).state
      = .Crashed (.AngleTooSteep 90) := by
    rw [check_collision, check_collision_go_eq_find, find_craftNeg90]
    show contactState craftNeg90 flatSeg = _
    rw [contactState_eq_specClassify]
    unfold specClassify
    norm_num [craftNeg90, attitudeNormalize_neg90, Vector.lenSq, flatSeg]
  have hclaim : claimClassifyC1 craftNeg90 flatSeg = .Crashed (.AngleTooSteep 270) := by
    unfold claimClassifyC1
    norm_num [craftNeg90, specNormalize_neg90, Vector.lenSq, flatSeg]
  refine ⟨find_craftNeg90, hstate, hclaim, ?_⟩
  rw [hstate, hclaim]
  intro hcontra
  have := CrashReason.AngleTooSteep.inj (LunarModuleState.Crashed.inj hcontra)
  norm_num at this

/-- C2: the collision scan registers contact exactly when a terrain
segment fires the `colliding` test — the nose circle or one of the two
leg segments intersects it; the craft's main body rectangle is not
tested.  Terrain segments are examined in their stored order
(`List.find?`), the first contacting segment alone determines the
outcome, and if no segment registers contact the state is set to
`Flying`. -/
theorem C2_first_contact_scan (g : Geom) (map : Map) (m : LunarModule) :
    check_collision g map m =
      match map.lines.find? (colliding g m) with
      | some line => { disable_thrust m with state := contactState m line }
      | none => { m with state := .Flying } :=
  check_collision_go_eq_find g m map.lines

/-- C3 (amended): `update_attitude`, `apply_thrust`, `disable_thrust` and
`tick_position` never change the lifecycle state (in particular they never
leave a terminal state), and `reset` always returns the state to `Flying`.
`check_collision`, however, recomputes the state unconditionally and is
exempted from the amended claim (see the counterexample). -/
theorem C3_terminal_ops (m : LunarModule) (g : Geom) (now : ℕ) (r : ℚ) :
    (update_attitude m).state = m.state ∧
      (apply_thrust g now m).state = m.state ∧
      (disable_thrust m).state = m.state ∧
      (tick_position m).state = m.state ∧
      (reset r now m).state = .Flying := by
  refine ⟨?_, ?_, rfl, rfl, rfl⟩
  · rw [update_attitude]
    split <;> rfl
  · rw [apply_thrust]
    split
    · dsimp only
      split <;> rfl
    · rfl

/-- C3, counterexample to the claim as stated: `check_collision` does
leave a terminal state — a `Landed` craft whose geometry no longer
contacts any terrain segment is set back to `Flying` without any
`reset`. -/
theorem C3_counterexample :
    landedCraft.state = .Landed ∧
      (check_collision exactGeom farMap landedCraft).state = .Flying := by
  refine ⟨rfl, ?_⟩
  rw [check_collision, check_collision_go_eq_find, find_landedCraft]

/-- C4 (amended): terrain construction never fails with `InvalidTerrain`
(no such error exists in the code): every non-empty point list succeeds,
producing one segment per consecutive point pair — an empty segment list
for a single point — while the empty list panics on `points[0]`
(modelled as `none`). -/
theorem C4_construction_total (p : Vector) (rest : List Vector) :
    extract_map [] = none ∧
      ∃ mp, extract_map (p :: rest) = some mp ∧ mp.lines.length = rest.length :=
  ⟨rfl, ⟨extract_go p rest⟩, rfl, extract_go_length p rest⟩

/-- C4, counterexample to the claim as stated: construction from a single
point does not fail — it succeeds with an empty segment list. -/
theorem C4_counterexample : extract_map [⟨0, 0⟩] = some ⟨[]⟩ := rfl

/-- C5 (amended): the code's attitude normalization `|θ % 360|` always
lies in `[0,360)`; it is invariant under adding full turns when the
attitude is nonnegative and the number of turns nonnegative; and for every
attitude and every integer number of turns, the crash-threshold decision
`10 < value < 350` is invariant.  (Full 360·k-periodicity of the value
itself fails for negative attitudes — see the counterexample.) -/
theorem C5_normalization (θ : ℚ) (k : ℤ) :
    (0 ≤ attitudeNormalize θ ∧ attitudeNormalize θ < 360) ∧
      (0 ≤ θ → 0 ≤ k → attitudeNormalize (θ + 360 * k) = attitudeNormalize θ) ∧
      ((10 < attitudeNormalize (θ + 360 * k) ∧ attitudeNormalize (θ + 360 * k) < 350) ↔
        (10 < attitudeNormalize θ ∧ attitudeNormalize θ < 350)) := by
  refine ⟨⟨attitudeNormalize_nonneg θ, attitudeNormalize_lt θ⟩, ?_, ?_⟩
  · intro hθ hk
    have hk' : (0 : ℚ) ≤ (k : ℚ) := by exact_mod_cast hk
    have hθ' : 0 ≤ θ + 360 * (k : ℚ) := by linarith
    rw [attitudeNormalize_of_nonneg hθ', attitudeNormalize_of_nonneg hθ,
      specNormalize_add_int]
  · rw [steep_iff_specNormalize (θ + 360 * (k : ℚ)), steep_iff_specNormalize θ,
      specNormalize_add_int]

/-- C5, witness: adding two full turns to a nonnegative attitude keeps the
normalized value. -/
theorem C5_normalization_witness :
    attitudeNormalize (30 + 360 * ((2 : ℤ) : ℚ)) = attitudeNormalize 30 :=
  (C5_normalization 30 2).2.1 (by norm_num) (by norm_num)

/-- C5, counterexample to the claim as stated: the code's normalization is
not 360-periodic — `normalize (-90) = 90` but `normalize 270 = 270`. -/
theorem C5_counterexample :
    attitudeNormalize (-90 + 360 * ((1 : ℤ) : ℚ)) ≠ attitudeNormalize (-90) := by
  rw [show (-90 + 360 * ((1 : ℤ) : ℚ)) = 270 by norm_num, attitudeNormalize_270,
    attitudeNormalize_neg90]
  norm_num

/-- C6: one integration tick adds the fixed gravity increment `(0,5)/60`
to the velocity, then advances the position by the new velocity scaled by
the fixed `1/60` step; no other field changes; the step constants are the
same on every call (they appear as fixed literals in the statement). -/
theorem C6_integrate_fixed_step (m : LunarModule) :
    (tick_position m).velocity = m.velocity + (⟨0, 5⟩ : Vector) / (60 : ℚ) ∧
      (tick_position m).position =
        m.position + (m.velocity + (⟨0, 5⟩ : Vector) / (60 : ℚ)) * (1 / 60 : ℚ) ∧
      (tick_position m).attitude = m.attitude ∧
      (tick_position m).desired_attitude = m.desired_attitude ∧
      (tick_position m).state = m.state ∧
      (tick_position m).thruster_on = m.thruster_on ∧
      (tick_position m).zoomed = m.zoomed ∧
      (tick_position m).thruster_on_time = m.thruster_on_time := by
  refine ⟨rfl, ?_, rfl, rfl, rfl, rfl, rfl, rfl⟩
  show m.position + (m.velocity + (⟨0, 5⟩ : Vector) / (60 : ℚ)) / (60 : ℚ) = _
  congr 1
  apply Vector.ext'
  · rw [Vector.sdiv_x, Vector.smul_x]
    ring
  · rw [Vector.sdiv_y, Vector.smul_y]
    ring

/-- C7: while the state is not `Flying`, `apply_thrust` and
`update_attitude` are complete no-ops — every field, velocity and attitude
included, is unchanged — and repeated calls remain no-ops. -/
theorem C7_commands_noop (m : LunarModule) (g : Geom) (now : ℕ)
    (h : m.state ≠ .Flying) :
    update_attitude m = m ∧ apply_thrust g now m = m ∧
      update_attitude (update_attitude m) = m ∧
      apply_thrust g now (apply_thrust g now m) = m := by
  have h1 : update_attitude m = m := by rw [update_attitude, if_neg h]
  have h2 : apply_thrust g now m = m := by rw [apply_thrust, if_neg h]
  exact ⟨h1, h2, by rw [h1, h1], by rw [h2, h2]⟩

/-- C7, witness: a landed craft is unchanged by both commands. -/
theorem C7_commands_noop_witness :
    update_attitude landedCraft = landedCraft ∧
      apply_thrust exactGeom 0 landedCraft = landedCraft ∧
      update_attitude (update_attitude landedCraft) = landedCraft ∧
      apply_thrust exactGeom 0 (apply_thrust exactGeom 0 landedCraft) = landedCraft :=
  C7_commands_noop landedCraft exactGeom 0 (by decide)

/-- C8 (amended): `tick_position` itself carries no state guard — the
protection against integrating in a terminal state is enforced by the
caller (`Game::update`, `src/game.rs` lines 75–77), which invokes
`tick_position` only while `Flying`; the guarded tick phase therefore
leaves a non-`Flying` craft entirely unchanged. -/
theorem C8_caller_guard (m : LunarModule) (h : m.state ≠ .Flying) :
    gameTickPhase m = m := by
  rw [gameTickPhase, if_neg h]

/-- C8, witness: the guarded tick phase on a landed craft. -/
theorem C8_caller_guard_witness : gameTickPhase landedCraft = landedCraft :=
  C8_caller_guard landedCraft (by decide)

/-- C8, counterexample to the claim as stated: calling `tick_position`
directly on a `Landed` craft does change velocity and position — the
guard is not inside the operation. -/
theorem C8_counterexample :
    landedCraft.state = .Landed ∧
      (tick_position landedCraft).velocity ≠ landedCraft.velocity ∧
      (tick_position landedCraft).position ≠ landedCraft.position := by
  refine ⟨rfl, fun heq => ?_, fun heq => ?_⟩
  · have hy := congrArg Vector.y heq
    rw [show (tick_position landedCraft).velocity
        = landedCraft.velocity + (⟨0, 5⟩ : Vector) / (60 : ℚ) from rfl,
      Vector.add_y, Vector.sdiv_y] at hy
    norm_num [landedCraft] at hy
  · have hy := congrArg Vector.y heq
    rw [show (tick_position landedCraft).position
        = landedCraft.position
          + (landedCraft.velocity + (⟨0, 5⟩ : Vector) / (60 : ℚ)) / (60 : ℚ) from rfl,
      Vector.add_y, Vector.sdiv_y, Vector.add_y, Vector.sdiv_y] at hy
    norm_num [landedCraft] at hy

/-- C9: after `reset` (with the random draw `r ∈ [0,1)`), the craft is
`Flying` at the fixed spawn point `(400,300)` with a horizontal `+x`
velocity of magnitude in `[20,40]`, attitude and desired attitude both 90,
and the thruster active; `new` produces exactly the state `reset` would. -/
theorem C9_reset_postcondition (m : LunarModule) (r : ℚ) (now : ℕ)
    (h0 : 0 ≤ r) (h1 : r < 1) :
    (reset r now m).state = .Flying ∧
      (reset r now m).position = ⟨400, 300⟩ ∧
      (reset r now m).velocity.y = 0 ∧
      (20 ≤ (reset r now m).velocity.x ∧ (reset r now m).velocity.x ≤ 40) ∧
      (reset r now m).attitude = 90 ∧
      (reset r now m).desired_attitude = 90 ∧
      (reset r now m).thruster_on = true ∧
      LunarModule.new r now = reset r now (LunarModule.new r now) := by
  refine ⟨rfl, rfl, rfl, ⟨?_, ?_⟩, rfl, rfl, rfl, rfl⟩
  · show (20 : ℚ) ≤ 20 + r * 20
    nlinarith
  · show (20 : ℚ) + r * 20 ≤ 40
    nlinarith

/-- C9, witness: reset with the random draw `r = 1/2`. -/
theorem C9_reset_postcondition_witness :
    (reset (1/2) 0 landedCraft).state = .Flying ∧
      (reset (1/2) 0 landedCraft).position = ⟨400, 300⟩ ∧
      (reset (1/2) 0 landedCraft).velocity.y = 0 ∧
      (20 ≤ (reset (1/2) 0 landedCraft).velocity.x ∧
        (reset (1/2) 0 landedCraft).velocity.x ≤ 40) ∧
      (reset (1/2) 0 landedCraft).attitude = 90 ∧
      (reset (1/2) 0 landedCraft).desired_attitude = 90 ∧
      (reset (1/2) 0 landedCraft).thruster_on = true ∧
      LunarModule.new (1/2) 0 = reset (1/2) 0 (LunarModule.new (1/2) 0) :=
  C9_reset_postcondition landedCraft (1/2) 0 (by norm_num) (by norm_num)

/-- C10: `check_collision` writes only the state and the thruster flag —
position, velocity, attitude, desired attitude, the zoom flag and the
thruster timestamp are unchanged, contact or no contact. -/
theorem C10_frame (g : Geom) (map : Map) (m : LunarModule) :
    (check_collision g map m).position = m.position ∧
      (check_collision g map m).velocity = m.velocity ∧
      (check_collision g map m).attitude = m.attitude ∧
      (check_collision g map m).desired_attitude = m.desired_attitude ∧
      (check_collision g map m).zoomed = m.zoomed ∧
      (check_collision g map m).thruster_on_time = m.thruster_on_time := by
  rw [check_collision, check_collision_go_eq_find]
  cases map.lines.find? (colliding g m) <;>
    exact ⟨rfl, rfl, rfl, rfl, rfl, rfl⟩

end LunarLander
